import Mathlib

/-!
# Verification of the vat-validator-api core

A shallow embedding, in Lean 4, of the core logic of the `vat-validator-api`
repository (TypeScript): input validation (`src/validation/vatValidation.ts`),
the VIES SOAP protocol client with its lightweight tag extraction and error
classification (`src/services/viesService.ts`), and the fallback orchestration
(`validateVat` in the Express app).

JavaScript strings are modelled as Lean `String`s (lists of characters); the
case-mapping functions `toUpperCase`/`toLowerCase` and the whitespace class
`\s` are modelled on their ASCII fragment, which covers every string the
program itself constructs and compares.
-/

deriving instance DecidableEq for Except

set_option maxRecDepth 10000

namespace VatValidator

/-! ## JS string primitives (ASCII model) -/

/-- Model of the JS whitespace class `\s` (and of `String.prototype.trim`),
restricted to its ASCII members. -/
def jsWhitespace (c : Char) : Bool :=
  c == ' ' || c == '\t' || c == '\n' || c == '\r' || c == '\x0b' || c == '\x0c'

/-- ASCII model of the character action of `String.prototype.toUpperCase`. -/
def upperChar (c : Char) : Char :=
  if 97 ≤ c.toNat ∧ c.toNat ≤ 122 then Char.ofNat (c.toNat - 32) else c

/-- ASCII model of the character action of `String.prototype.toLowerCase`. -/
def lowerChar (c : Char) : Char :=
  if 65 ≤ c.toNat ∧ c.toNat ≤ 90 then Char.ofNat (c.toNat + 32) else c

/-- `s.toUpperCase()` -/
def jsToUpper (s : String) : String := ⟨s.data.map upperChar⟩

/-- `s.toLowerCase()` -/
def jsToLower (s : String) : String := ⟨s.data.map lowerChar⟩

/-- `s.trim()` on character lists: strip leading and trailing whitespace. -/
def jsTrimList (l : List Char) : List Char :=
  ((l.dropWhile (fun c => jsWhitespace c)).reverse.dropWhile
    (fun c => jsWhitespace c)).reverse

/-- `s.trim()` -/
def jsTrim (s : String) : String := ⟨jsTrimList s.data⟩

/-- `leadsWith needle l` holds when `l` starts with `needle`. -/
def leadsWith : List Char → List Char → Bool
  | [], _ => true
  | _ :: _, [] => false
  | a :: as, b :: bs => a == b && leadsWith as bs

/-- Substring occurrence (the semantics of `String.prototype.includes`). -/
def hasSubList : List Char → List Char → Bool
  | needle, [] => leadsWith needle []
  | needle, hay@(_ :: t) => leadsWith needle hay || hasSubList needle t

/-- `hay.includes(needle)` -/
def jsIncludes (hay needle : String) : Bool := hasSubList needle.data hay.data

/-! ## Input Validator (`src/validation/vatValidation.ts`) -/

/-- EU/EEA country codes supported by VIES (including Northern Ireland XI).
The source keeps them in a `Set`; only membership is ever used. -/
def EU_COUNTRY_CODES : List String :=
  ["AT", "BE", "BG", "HR", "CY", "CZ", "DE", "DK", "EE", "EL", "ES", "FI", "FR",
   "GR", "HU", "IE", "IT", "LT", "LU", "LV", "MT", "NL", "PL", "PT", "RO", "SE",
   "SI", "SK", "XI"]

def isUpperLetter (c : Char) : Bool := 65 ≤ c.toNat && c.toNat ≤ 90

def isDigitChar (c : Char) : Bool := 48 ≤ c.toNat && c.toNat ≤ 57

/-- `COUNTRY_CODE_REGEX = /^[A-Z]{2}$/` as an anchored test. -/
def countryCodeRegexTest (s : String) : Bool :=
  s.data.length == 2 && s.data.all isUpperLetter

/-- `VAT_NUMBER_REGEX = /^[A-Z0-9]{2,12}$/` as an anchored test. -/
def vatNumberRegexTest (s : String) : Bool :=
  2 ≤ s.data.length && s.data.length ≤ 12 &&
    s.data.all (fun c => isUpperLetter c || isDigitChar c)

/-- Max length for raw vat_number input (before normalize). -/
def MAX_VAT_INPUT_LENGTH : Nat := 20

structure ValidationError where
  error : String
  message : String
deriving DecidableEq

structure ValidatedVat where
  countryCode : String
  vatNumber : String
deriving DecidableEq

/-- The source's `ValidationOutcome` union: `{valid:true, countryCode, vatNumber}`
or `{valid:false, error, message}`. -/
abbrev ValidationOutcome := Except ValidationError ValidatedVat

/-- Character-list body of `normalizeVatNumber`: remove whitespace, remove
dashes, uppercase. -/
def normListChars (l : List Char) : List Char :=
  ((l.filter (fun c => !jsWhitespace c)).filter
      (fun c => !(c == '-'))).map upperChar

/-- `normalizeVatNumber`: replace every whitespace run by the empty string,
then every dash by the empty string, then uppercase — i.e. remove exactly the
whitespace and dash characters, then uppercase. -/
def normalizeVatNumber (vat : String) : String := ⟨normListChars vat.data⟩

/-- Message for a country code that fails the two-uppercase-letter shape test. -/
def countryShapeMessage : String :=
  "countryCode must be a two-letter ISO country code (e.g. IE, DE)."

/-- Message for a well-formed country code outside the allow-list (the source
interpolates the uppercased code into the message). -/
def countryUnsupportedMessage (code : String) : String :=
  "Unsupported or invalid country code: " ++ code ++
    ". Must be an EU/EEA code supported by VIES (e.g. IE, DE, FR)."

/-- `validateCountryCode` (returns `null` on success, an error object otherwise). -/
def validateCountryCode (countryCode : String) : Option ValidationError :=
  let code := jsToUpper countryCode
  if !countryCodeRegexTest code then
    some ⟨"Invalid Input", countryShapeMessage⟩
  else if !(EU_COUNTRY_CODES.contains code) then
    some ⟨"Invalid Input", countryUnsupportedMessage code⟩
  else none

/-- `validateVatNumber` (returns `null` on success). The first guard is the JS
truthiness test `!vatNumber`, i.e. the empty string. -/
def validateVatNumber (vatNumber : String) : Option ValidationError :=
  if vatNumber == "" then
    some ⟨"Invalid Input", "vatNumber is required and cannot be empty."⟩
  else if !vatNumberRegexTest vatNumber then
    some ⟨"Invalid Input",
      "vatNumber must contain only letters and digits (2–12 characters after removing spaces/dashes)."⟩
  else none

/-- Override message used by `validateFullVatInput` when the sliced country
code is rejected. -/
def fullInputCountryMessage : String :=
  "vat_number must start with a valid EU country code (e.g. IE6388047V)."

/-- `validateFullVatInput`: full identifier such as `IE6388047V`. The
`typeof raw !== "string"` guard of the source is vacuous here since the model
input is always a string. The `${MAX_VAT_INPUT_LENGTH}` interpolation in the
too-long message is rendered with the constant's value 20. -/
def validateFullVatInput (raw : String) : ValidationOutcome :=
  let trimmed := jsTrim raw
  if trimmed == "" then
    .error ⟨"Invalid Input",
      "Query parameter vat_number is required (e.g. ?vat_number=IE6388047V)."⟩
  else if MAX_VAT_INPUT_LENGTH < trimmed.data.length then
    .error ⟨"Invalid Input", "vat_number is too long (max 20 characters)."⟩
  else if trimmed.data.length < 4 then
    .error ⟨"Invalid Input",
      "vat_number must start with a two-letter country code followed by the VAT number (e.g. IE6388047V)."⟩
  else
    let countryCode := jsToUpper ⟨trimmed.data.take 2⟩
    let vatNumber := normalizeVatNumber ⟨trimmed.data.drop 2⟩
    match validateCountryCode countryCode with
    | some e => .error ⟨e.error, fullInputCountryMessage⟩
    | none =>
        match validateVatNumber vatNumber with
        | some e => .error e
        | none => .ok ⟨countryCode, vatNumber⟩

/-- `validatePathParams`: countryCode and vatNumber validated separately. -/
def validatePathParams (countryCode vatNumberRaw : String) : ValidationOutcome :=
  let code := jsToUpper countryCode
  let vatNumber := normalizeVatNumber vatNumberRaw
  match validateCountryCode code with
  | some e => .error e
  | none =>
      match validateVatNumber vatNumber with
      | some e => .error e
      | none => .ok ⟨code, vatNumber⟩

/-! ## Registry Protocol Client (`src/services/viesService.ts`) -/

def SOAP_NS : String := "urn:ec.europa.eu:taxud:vies:services:checkVat:types"

/-- `replaceAllChar c rep l` replaces every occurrence of the character `c` in
`l` by the string `rep` — the action of `l.replace(/c/g, rep)` for a
single-character global pattern. -/
def replaceAllChar (c : Char) (rep : List Char) : List Char → List Char
  | [] => []
  | a :: t => (if a == c then rep else [a]) ++ replaceAllChar c rep t

/-- `escapeXml`: the five global replacements, in source order (`&` first, so
entities introduced by the later replacements are not re-escaped). -/
def escapeXml (s : String) : String :=
  ⟨replaceAllChar '\'' "&apos;".data
    (replaceAllChar '"' "&quot;".data
      (replaceAllChar '>' "&gt;".data
        (replaceAllChar '<' "&lt;".data
          (replaceAllChar '&' "&amp;".data s.data))))⟩

/-- The five XML meta-characters escaped by `escapeXml`. -/
def xmlMeta (c : Char) : Bool :=
  c == '&' || c == '<' || c == '>' || c == '"' || c == '\''

/-- `buildSoapEnvelope`: the source joins a fixed list of template lines with
a newline; written here as the equal explicit concatenation (grouped to the
right; string append is associative). -/
def buildSoapEnvelope (countryCode : String) (vatNumber : String) : String :=
  "<?xml version=\"1.0\" encoding=\"UTF-8\"?>\n" ++
  ("<soap:Envelope xmlns:soap=\"http://schemas.xmlsoap.org/soap/envelope/\" xmlns:urn=\"" ++
  (SOAP_NS ++ ("\">\n" ++
  ("  <soap:Body>\n" ++
  ("    <urn:checkVat>\n" ++
  ("      <urn:countryCode>" ++ (escapeXml countryCode ++ ("</urn:countryCode>\n" ++
  ("      <urn:vatNumber>" ++ (escapeXml vatNumber ++ ("</urn:vatNumber>\n" ++
  ("    </urn:checkVat>\n" ++
  ("  </soap:Body>\n" ++
  "</soap:Envelope>")))))))))))))

/-!
### Tag extraction

`extractTag` in the source matches, case-insensitively, the first of the two
patterns

  pattern 1:  `<`, a run of characters other than `:`/`>`, an optional `:`,
              the tag name, a run of characters other than `>`, `>`, a lazy
              capture, `</`, a run of characters other than `:`/`>`, an
              optional `:`, the tag name, optional whitespace, `>`;
  pattern 2:  the same without the namespace-prefix parts,

and returns the trimmed first capture group.  The functions below transcribe a
backtracking matcher for exactly these patterns, scanning positions left to
right (JS leftmost-match semantics).  The open-tag part is deterministic in
its outcome: whichever split of the prefix run/optional colon matches, the tag
name contains neither `:` nor `>`, so every successful parse resumes after the
first `>` following the `<`; the lazy capture extends to the first position
where the closing pattern matches.
-/

/-- Case-insensitive literal match: strip `tag` (case-insensitively, using the
JS lowercase mapping on both sides) from the head of `l`, returning the rest. -/
def ciStrip : List Char → List Char → Option (List Char)
  | [], l => some l
  | _ :: _, [] => none
  | a :: as, b :: bs => if lowerChar a == lowerChar b then ciStrip as bs else none

/-- `[^>]*>`: skip to the first `>`, returning what follows it. -/
def skipToGt : List Char → Option (List Char)
  | [] => none
  | c :: cs => if c == '>' then some cs else skipToGt cs

/-- `TAG[^>]*>` at the head of the list. -/
def litThenGt (tag : List Char) (l : List Char) : Option (List Char) :=
  match ciStrip tag l with
  | some r => skipToGt r
  | none => none

/-- `\s*>` at the head of the list. -/
def wsGt : List Char → Bool
  | [] => false
  | c :: cs => c == '>' || (jsWhitespace c && wsGt cs)

/-- `TAG\s*>` at the head of the list. -/
def litWsGt (tag : List Char) (l : List Char) : Bool :=
  match ciStrip tag l with
  | some r => wsGt r
  | none => false

/-- `[^:>]*:?TAG[^>]*>`: the part of pattern 1's open tag after `<`. -/
def openTail (tag : List Char) : List Char → Option (List Char)
  | [] => none
  | c :: cs =>
    match litThenGt tag (c :: cs) with
    | some r => some r
    | none =>
      match (if c == ':' then litThenGt tag cs else none) with
      | some r => some r
      | none => if c != ':' && c != '>' then openTail tag cs else none

/-- `[^:>]*:?TAG\s*>`: the part of pattern 1's closing tag after `</`. -/
def closeTail (tag : List Char) : List Char → Bool
  | [] => false
  | c :: cs =>
    litWsGt tag (c :: cs) ||
    (c == ':' && litWsGt tag cs) ||
    (c != ':' && c != '>' && closeTail tag cs)

/-- Pattern 1's closing tag `</[^:>]*:?TAG\s*>` at the head of the list. -/
def closeTag (tag : List Char) : List Char → Bool
  | c1 :: c2 :: cs => c1 == '<' && c2 == '/' && closeTail tag cs
  | _ => false

/-- The lazy capture of pattern 1: the shortest prefix whose continuation
matches the closing tag. -/
def captureLoop (tag : List Char) : List Char → Option (List Char)
  | [] => none
  | c :: cs =>
    if closeTag tag (c :: cs) then some []
    else (captureLoop tag cs).map (c :: ·)

/-- Leftmost match of pattern 1, returning the capture group. -/
def find1 (tag : List Char) : List Char → Option (List Char)
  | [] => none
  | c :: cs =>
    (if c == '<' then (openTail tag cs).bind (captureLoop tag) else none) <|>
      find1 tag cs

/-- Pattern 2's open tag after `<`: `TAG[^>]*>`. -/
def openTail2 (tag : List Char) (l : List Char) : Option (List Char) :=
  litThenGt tag l

/-- Pattern 2's closing tag `</TAG\s*>` at the head of the list. -/
def closeTag2 (tag : List Char) : List Char → Bool
  | c1 :: c2 :: cs => c1 == '<' && c2 == '/' && litWsGt tag cs
  | _ => false

/-- The lazy capture of pattern 2. -/
def captureLoop2 (tag : List Char) : List Char → Option (List Char)
  | [] => none
  | c :: cs =>
    if closeTag2 tag (c :: cs) then some []
    else (captureLoop2 tag cs).map (c :: ·)

/-- Leftmost match of pattern 2, returning the capture group. -/
def find2 (tag : List Char) : List Char → Option (List Char)
  | [] => none
  | c :: cs =>
    (if c == '<' then (openTail2 tag cs).bind (captureLoop2 tag) else none) <|>
      find2 tag cs

/-- `extractTag`: first pattern that matches wins; the capture is trimmed. -/
def extractTag (xml : String) (tagName : String) : Option String :=
  match find1 tagName.data xml.data with
  | some cap => some ⟨jsTrimList cap⟩
  | none =>
    match find2 tagName.data xml.data with
    | some cap => some ⟨jsTrimList cap⟩
    | none => none

/-- `getSoapFaultString`: the `if (faultString)` truthiness guard means an
empty extracted fault string is treated as no fault at all. -/
def getSoapFaultString (xml : String) : Option String :=
  match extractTag xml "faultstring" with
  | some f => if f == "" then none else some (jsTrim f)
  | none => none

/-- All-whitespace test for the tail of the `valid` literal match. -/
def allWs (l : List Char) : Bool := l.all jsWhitespace

/-- The test `^\s*true\s*$` with the `i` flag on `validStr`.  The leading `\s*`
is modelled by `dropWhile`: the anchored greedy whitespace run is exactly the
maximal whitespace prefix, since `true` does not start with whitespace. -/
def trueLiteralTest (s : String) : Bool :=
  match ciStrip "true".data (s.data.dropWhile (fun c => jsWhitespace c)) with
  | some rest => allWs rest
  | none => false

/-- The source's `ViesResponse` record. -/
structure ViesResponse where
  valid : Bool
  countryCode : String
  vatNumber : String
  name : String
  address : String
  requestDate : String
  consultationNumber : Option String
deriving DecidableEq

/-- `parseViesResponse`: throws (models as `.error`) when the `valid` element
is missing; all other fields default to the empty string, and the optional
`requestIdentifier` maps to `consultationNumber`. -/
def parseViesResponse (xml : String) : Except String ViesResponse :=
  match extractTag xml "valid" with
  | none => .error "VIES response missing required \x27valid\x27 element"
  | some validStr =>
    .ok
      { valid := trueLiteralTest validStr
        countryCode := (extractTag xml "countryCode").getD ""
        vatNumber := (extractTag xml "vatNumber").getD ""
        name := (extractTag xml "name").getD ""
        address := (extractTag xml "address").getD ""
        requestDate := (extractTag xml "requestDate").getD ""
        consultationNumber := extractTag xml "requestIdentifier" }

/-! ### Error taxonomy and transport classification -/

inductive ViesErrorCode where
  | SERVICE_UNAVAILABLE
  | MS_UNAVAILABLE
  | INVALID_INPUT
  | TIMEOUT
  | SERVER_BUSY
  | SERVER_DOWN
  | NETWORK_ERROR
  | PARSE_ERROR
  | UNKNOWN_ERROR
deriving DecidableEq

/-- The source's `ViesServiceError` (an `Error` subclass); the inherited
`message` together with the `code`, `statusCode` and optional `details`. -/
structure ViesServiceError where
  message : String
  code : ViesErrorCode
  statusCode : Nat
  details : Option String
deriving DecidableEq

/-- `VIES_ERROR_MESSAGES`: user-friendly message for each VIES error code. -/
def VIES_ERROR_MESSAGES : ViesErrorCode → String
  | .INVALID_INPUT =>
    "The VAT number or country code was rejected by the EU VIES system. Please check the format and try again."
  | .MS_UNAVAILABLE =>
    "The member state\x27s validation service is temporarily unavailable. Please try again later."
  | .SERVICE_UNAVAILABLE =>
    "The EU VIES service is temporarily unavailable. Please try again later."
  | .SERVER_DOWN =>
    "The EU VIES service is currently down. Please try again later."
  | .TIMEOUT =>
    "The request to the EU VIES service timed out. Please try again."
  | .SERVER_BUSY =>
    "The EU VIES service is currently busy. Please try again in a few minutes."
  | .NETWORK_ERROR =>
    "Unable to reach the EU VIES service. Check your network connection or try again later."
  | .PARSE_ERROR =>
    "The EU VIES service returned an unexpected response. Please try again later."
  | .UNKNOWN_ERROR =>
    "An unexpected error occurred while validating the VAT number. Please try again."

def toFriendlyError (code : ViesErrorCode) (statusCode : Nat)
    (rawFault : Option String) : ViesServiceError :=
  { message := VIES_ERROR_MESSAGES code
    code := code
    statusCode := statusCode
    details := rawFault }

/-- `normalizeFault`: priority classification of a SOAP fault string by
case-insensitive substring matching. -/
def normalizeFault (faultString : String) : ViesErrorCode × Nat :=
  let lower := jsToLower faultString
  if jsIncludes lower "service unavailable" || jsIncludes lower "server down" then
    (.SERVICE_UNAVAILABLE, 503)
  else if jsIncludes lower "ms unavailable" || jsIncludes lower "member state" then
    (.MS_UNAVAILABLE, 503)
  else if jsIncludes lower "invalid" || jsIncludes lower "invalid input" then
    (.INVALID_INPUT, 400)
  else if jsIncludes lower "timeout" || jsIncludes lower "timed out" then
    (.TIMEOUT, 504)
  else if jsIncludes lower "busy" || jsIncludes lower "overloaded" then
    (.SERVER_BUSY, 503)
  else
    (.UNKNOWN_ERROR, 502)

/-- The fault-classification table exactly as the specification states it
(the specification omits the redundant `invalid input` disjunct). -/
def normalizeFaultClaim (faultString : String) : ViesErrorCode × Nat :=
  let lower := jsToLower faultString
  if jsIncludes lower "service unavailable" || jsIncludes lower "server down" then
    (.SERVICE_UNAVAILABLE, 503)
  else if jsIncludes lower "ms unavailable" || jsIncludes lower "member state" then
    (.MS_UNAVAILABLE, 503)
  else if jsIncludes lower "invalid" then
    (.INVALID_INPUT, 400)
  else if jsIncludes lower "timeout" || jsIncludes lower "timed out" then
    (.TIMEOUT, 504)
  else if jsIncludes lower "busy" || jsIncludes lower "overloaded" then
    (.SERVER_BUSY, 503)
  else
    (.UNKNOWN_ERROR, 502)

/-- `isNetworkErrorCode`: the `!code` truthiness guard rejects an absent or
empty code; otherwise membership in the fixed list. -/
def isNetworkErrorCode (code : Option String) : Bool :=
  match code with
  | none => false
  | some c =>
    if c == "" then false
    else
      ["ECONNREFUSED", "ECONNRESET", "ENOTFOUND", "ENETUNREACH", "ETIMEDOUT",
        "EAI_AGAIN", "ERR_NETWORK", "ERR_CONNECTION_REFUSED",
        "ERR_CONNECTION_RESET"].contains c

/-- The diagnostic detail attached to the HTTP 403 (IP-blocking) case. -/
def ipBlockDetail : String :=
  "The EU VIES service blocked the request (often when called from cloud/datacenter IPs). Try again later or run the API from a different network."

/-- The observable fields of an `AxiosError` that `checkVat` inspects:
`ax.code`, `ax.message`, `ax.response?.status`, and `ax.response?.data` when
the latter is a string (a non-string payload is modelled as `none`). -/
structure AxiosErrorInfo where
  code : Option String
  message : Option String
  responseStatus : Option Nat
  responseData : Option String
deriving DecidableEq

/-- The `ax.response?.data && typeof ax.response.data === "string"` guard
followed by `getSoapFaultString`: the fault string found in the error
response body, if any. -/
def axiosFaultString (ax : AxiosErrorInfo) : Option String :=
  match ax.responseData with
  | some d => if d == "" then none else getSoapFaultString d
  | none => none

/-- The `catch` branch of `checkVat` for an `AxiosError`. -/
def classifyAxiosError (ax : AxiosErrorInfo) : ViesServiceError :=
  match axiosFaultString ax with
  | some fault =>
    let p := normalizeFault fault
    toFriendlyError p.1 p.2 (some fault)
  | none =>
    if ax.code == some "ECONNABORTED" ||
        (match ax.message with
         | some m => jsIncludes (jsToLower m) "timeout"
         | none => false) then
      toFriendlyError .TIMEOUT 504 none
    else if ax.responseStatus == some 503 then
      toFriendlyError .SERVICE_UNAVAILABLE 503 none
    else if ax.responseStatus == some 403 then
      toFriendlyError .SERVICE_UNAVAILABLE 502 (some ipBlockDetail)
    else if isNetworkErrorCode ax.code then
      toFriendlyError .NETWORK_ERROR 502 (ax.message <|> ax.code)
    else
      toFriendlyError .UNKNOWN_ERROR
        (match ax.responseStatus with
         | some st => if 400 ≤ st then st else 502
         | none => 502)
        ax.message

/-- The transport-level classification exactly as the specification states it
(kind and status; applicable when no fault body is available). -/
def classifyTransportClaim (ax : AxiosErrorInfo) : ViesErrorCode × Nat :=
  if ax.code == some "ECONNABORTED" ||
      (match ax.message with
       | some m => jsIncludes (jsToLower m) "timeout"
       | none => false) then (.TIMEOUT, 504)
  else if ax.responseStatus == some 503 then (.SERVICE_UNAVAILABLE, 503)
  else if ax.responseStatus == some 403 then (.SERVICE_UNAVAILABLE, 502)
  else if isNetworkErrorCode ax.code then (.NETWORK_ERROR, 502)
  else
    match ax.responseStatus with
    | some st => if 400 ≤ st then (.UNKNOWN_ERROR, st) else (.UNKNOWN_ERROR, 502)
    | none => (.UNKNOWN_ERROR, 502)

/-- Outcome of the HTTP POST performed by `checkVat`: a (possibly non-string,
modelled `none`) response payload, an `AxiosError`, or a non-axios failure
carrying the `err instanceof Error ? err.message : undefined` detail. -/
inductive TransportResult where
  | success (data : Option String)
  | axiosFailure (ax : AxiosErrorInfo)
  | otherFailure (message : Option String)
deriving DecidableEq

/-- `checkVat` after the transport call: the request side is
`buildSoapEnvelope`; this function is the entire response/error handling of
the source, parameterized by the transport outcome. -/
def checkVat (transport : TransportResult) : Except ViesServiceError ViesResponse :=
  match transport with
  | .axiosFailure ax => .error (classifyAxiosError ax)
  | .otherFailure m => .error (toFriendlyError .UNKNOWN_ERROR 502 m)
  | .success none =>
    .error (toFriendlyError .PARSE_ERROR 502 (some "Empty response from VIES"))
  | .success (some data) =>
    if (jsTrim data).data.length == 0 then
      .error (toFriendlyError .PARSE_ERROR 502 (some "Empty response from VIES"))
    else
      match getSoapFaultString data with
      | some fault =>
        let p := normalizeFault fault
        .error (toFriendlyError p.1 p.2 (some fault))
      | none =>
        match parseViesResponse data with
        | .ok r => .ok r
        | .error msg => .error (toFriendlyError .PARSE_ERROR 502 (some msg))

/-! ## Fallback Orchestrator (`validateVat` in the Express app) -/

/-- An error thrown out of `checkVat` or `checkVatViaVatlayer`: either a
`ViesServiceError` or a plain `Error`. -/
inductive UpstreamError where
  | vies (e : ViesServiceError)
  | plain (message : String)
deriving DecidableEq

/-- JS truthiness of `config.vatlayerApiKey`: configured means present and
non-empty. -/
def vatlayerConfigured (vatlayerApiKey : Option String) : Bool :=
  match vatlayerApiKey with
  | some k => !(k == "")
  | none => false

/-- `validateVat`: try VIES; on the IP-blocking signature
(`ViesServiceError` with code `SERVICE_UNAVAILABLE` at status 502) with a
configured fallback credential, return the single Vatlayer call's outcome
(whatever it is); otherwise rethrow.  The second component records whether
the fallback was invoked. -/
def validateVat (vatlayerApiKey : Option String)
    (viesResult : Except UpstreamError ViesResponse)
    (vatlayerResult : Except UpstreamError ViesResponse) :
    Except UpstreamError ViesResponse × Bool :=
  match viesResult with
  | .ok r => (.ok r, false)
  | .error err =>
    let useVatlayer :=
      vatlayerConfigured vatlayerApiKey &&
        (match err with
         | .vies e => e.code == .SERVICE_UNAVAILABLE && e.statusCode == 502
         | .plain _ => false)
    if useVatlayer then (vatlayerResult, true) else (.error err, false)

/-! ## Character-level lemmas -/

theorem char_eq_of_toNat_eq {a b : Char} (h : a.toNat = b.toNat) : a = b :=
  Char.ext (UInt32.ext h)

theorem char_toNat_ofNat {n : Nat} (h : n.isValidChar) : (Char.ofNat n).toNat = n := by
  have hlt : n < 2 ^ 32 := by rcases h with h | ⟨_, h⟩ <;> omega
  simp only [Char.ofNat, dif_pos h, Char.ofNatAux, Char.toNat, UInt32.toNat]
  simp [BitVec.toNat_ofNatLt]

theorem upperChar_of_lower {c : Char} (h : 97 ≤ c.toNat ∧ c.toNat ≤ 122) :
    upperChar c = Char.ofNat (c.toNat - 32) := by
  show (if 97 ≤ c.toNat ∧ c.toNat ≤ 122 then Char.ofNat (c.toNat - 32) else c) =
    Char.ofNat (c.toNat - 32)
  exact if_pos h

theorem upperChar_of_not_lower {c : Char} (h : ¬(97 ≤ c.toNat ∧ c.toNat ≤ 122)) :
    upperChar c = c := by
  show (if 97 ≤ c.toNat ∧ c.toNat ≤ 122 then Char.ofNat (c.toNat - 32) else c) = c
  exact if_neg h

/-- Case analysis on `upperChar`: a lowercase letter is shifted down by 32,
anything else is unchanged. -/
theorem upperChar_toNat (c : Char) :
    (97 ≤ c.toNat ∧ c.toNat ≤ 122 ∧ (upperChar c).toNat = c.toNat - 32) ∨
    (¬(97 ≤ c.toNat ∧ c.toNat ≤ 122) ∧ upperChar c = c) := by
  by_cases h : 97 ≤ c.toNat ∧ c.toNat ≤ 122
  · exact .inl ⟨h.1, h.2, by
      rw [upperChar_of_lower h, char_toNat_ofNat (Or.inl (by omega))]⟩
  · exact .inr ⟨h, upperChar_of_not_lower h⟩

theorem char_beq_false_of_toNat_ne {a b : Char} (h : a.toNat ≠ b.toNat) :
    (a == b) = false :=
  beq_eq_false_iff_ne.mpr (fun e => h (congrArg Char.toNat e))

theorem jsWhitespace_false_of_ge {c : Char} (h : 33 ≤ c.toNat) :
    jsWhitespace c = false := by
  simp only [jsWhitespace, Bool.or_eq_false_iff]
  refine ⟨⟨⟨⟨⟨?_, ?_⟩, ?_⟩, ?_⟩, ?_⟩, ?_⟩ <;>
    exact char_beq_false_of_toNat_ne (fun hh => by rw [hh] at h; revert h; decide)

theorem jsWhitespace_upperChar {c : Char} (h : jsWhitespace c = false) :
    jsWhitespace (upperChar c) = false := by
  rcases upperChar_toNat c with ⟨_, _, h3⟩ | ⟨_, h2⟩
  · exact jsWhitespace_false_of_ge (by omega)
  · rw [h2]; exact h

theorem upperChar_ne_dash {c : Char} (h : (c == '-') = false) :
    (upperChar c == '-') = false := by
  rcases upperChar_toNat c with ⟨_, _, h3⟩ | ⟨_, h2⟩
  · refine char_beq_false_of_toNat_ne (fun hh => ?_)
    rw [h3, show ('-' : Char).toNat = 45 from rfl] at hh
    omega
  · rw [h2]; exact h

theorem upperChar_idem (c : Char) : upperChar (upperChar c) = upperChar c := by
  rcases upperChar_toNat c with ⟨_, _, h3⟩ | ⟨_, h2⟩
  · exact upperChar_of_not_lower (by omega)
  · rw [h2]; exact h2

/-! ## Idempotence of normalization (claim C10) -/

theorem map_upperChar_eq_self {m : List Char} (h : ∀ c ∈ m, upperChar c = c) :
    m.map upperChar = m := by
  induction m with
  | nil => rfl
  | cons a t ih => simp [h a (by simp), ih (fun c hc => h c (by simp [hc]))]

theorem normListChars_eq_self {m : List Char}
    (h1 : ∀ c ∈ m, jsWhitespace c = false)
    (h2 : ∀ c ∈ m, (c == '-') = false)
    (h3 : ∀ c ∈ m, upperChar c = c) :
    normListChars m = m := by
  unfold normListChars
  have e1 : m.filter (fun c => !jsWhitespace c) = m :=
    List.filter_eq_self.mpr (fun a ha => by simp only [h1 a ha, Bool.not_false])
  have e2 : m.filter (fun c => !(c == '-')) = m :=
    List.filter_eq_self.mpr (fun a ha => by simp only [h2 a ha, Bool.not_false])
  rw [e1, e2, map_upperChar_eq_self h3]

theorem normListChars_mem {l : List Char} {c : Char} (hc : c ∈ normListChars l) :
    jsWhitespace c = false ∧ (c == '-') = false ∧ upperChar c = c := by
  obtain ⟨d, hd, rfl⟩ := List.mem_map.mp hc
  obtain ⟨hd2, hdash⟩ := List.mem_filter.mp hd
  obtain ⟨_, hws⟩ := List.mem_filter.mp hd2
  have hws' : jsWhitespace d = false := by simpa using hws
  have hdash' : (d == '-') = false := by simpa using hdash
  exact ⟨jsWhitespace_upperChar hws', upperChar_ne_dash hdash', upperChar_idem d⟩

theorem normListChars_idem (l : List Char) :
    normListChars (normListChars l) = normListChars l :=
  normListChars_eq_self (fun _ hc => (normListChars_mem hc).1)
    (fun _ hc => (normListChars_mem hc).2.1)
    (fun _ hc => (normListChars_mem hc).2.2)

theorem normalizeVatNumber_idem (s : String) :
    normalizeVatNumber (normalizeVatNumber s) = normalizeVatNumber s :=
  congrArg String.mk (normListChars_idem s.data)

theorem validatePathParams_ok {cc vn : String} {r : ValidatedVat}
    (h : validatePathParams cc vn = .ok r) :
    r.vatNumber = normalizeVatNumber vn := by
  simp only [validatePathParams] at h
  split at h
  · exact absurd h (by simp)
  · split at h
    · exact absurd h (by simp)
    · cases Except.ok.inj h; rfl

theorem validateFullVatInput_ok {raw : String} {r : ValidatedVat}
    (h : validateFullVatInput raw = .ok r) :
    r.vatNumber = normalizeVatNumber ⟨(jsTrim raw).data.drop 2⟩ := by
  simp only [validateFullVatInput] at h
  split at h
  · exact absurd h (by simp)
  · split at h
    · exact absurd h (by simp)
    · split at h
      · exact absurd h (by simp)
      · split at h
        · exact absurd h (by simp)
        · split at h
          · exact absurd h (by simp)
          · cases Except.ok.inj h; rfl

/-- Claim C10: `normalizeVatNumber` is idempotent, and every successful outcome
of `validatePathParams` or `validateFullVatInput` carries a `vatNumber` that is
a fixed point of `normalizeVatNumber`. -/
theorem normalizeVatNumber_idempotent_and_outputs_normalized :
    (∀ s : String, normalizeVatNumber (normalizeVatNumber s) = normalizeVatNumber s) ∧
    (∀ cc vn : String, ∀ r : ValidatedVat, validatePathParams cc vn = .ok r →
      normalizeVatNumber r.vatNumber = r.vatNumber) ∧
    (∀ raw : String, ∀ r : ValidatedVat, validateFullVatInput raw = .ok r →
      normalizeVatNumber r.vatNumber = r.vatNumber) := by
  refine ⟨normalizeVatNumber_idem, fun cc vn r h => ?_, fun raw r h => ?_⟩
  · rw [validatePathParams_ok h]; exact normalizeVatNumber_idem vn
  · rw [validateFullVatInput_ok h]; exact normalizeVatNumber_idem _

/-- Witness for C10 at concrete inputs. -/
theorem normalizeVatNumber_idempotent_and_outputs_normalized_witness :
    validatePathParams "IE" "63-88 047v" = .ok ⟨"IE", "6388047V"⟩ ∧
    normalizeVatNumber (ValidatedVat.mk "IE" "6388047V").vatNumber =
      (ValidatedVat.mk "IE" "6388047V").vatNumber :=
  ⟨by decide,
    normalizeVatNumber_idempotent_and_outputs_normalized.2.1 "IE" "63-88 047v"
      ⟨"IE", "6388047V"⟩ (by decide)⟩

/-! ## Country-code validation (claim C6) -/

/-- The shape message and the unsupported-code message never coincide: the
latter is longer than the former for every interpolated code. -/
theorem countryShape_ne_unsupported (code : String) :
    countryShapeMessage ≠ countryUnsupportedMessage code := by
  intro h
  have h2 := congrArg (fun t : String => t.data.length) h
  simp only [countryUnsupportedMessage, String.data_append, List.length_append] at h2
  have e1 : countryShapeMessage.data.length = 64 := by decide
  have e2 : ("Unsupported or invalid country code: " : String).data.length = 37 := by
    decide
  have e3 :
      (". Must be an EU/EEA code supported by VIES (e.g. IE, DE, FR)." :
        String).data.length = 61 := by decide
  rw [e1, e2, e3] at h2
  omega

/-- Claim C6 (amended): `validateCountryCode` uppercases its input first; it
accepts iff the uppercased code is exactly two uppercase letters and a member
of the fixed 29-code allow-list (which includes XI), and it rejects with the
shape message when the uppercased code fails `^[A-Z]{2}$` and with the distinct
unsupported-code message when it is well-formed but not in the allow-list. -/
theorem validateCountryCode_spec (s : String) :
    (validateCountryCode s = none ↔
      countryCodeRegexTest (jsToUpper s) = true ∧ jsToUpper s ∈ EU_COUNTRY_CODES) ∧
    (countryCodeRegexTest (jsToUpper s) = false →
      validateCountryCode s = some ⟨"Invalid Input", countryShapeMessage⟩) ∧
    (countryCodeRegexTest (jsToUpper s) = true → jsToUpper s ∉ EU_COUNTRY_CODES →
      validateCountryCode s =
        some ⟨"Invalid Input", countryUnsupportedMessage (jsToUpper s)⟩) ∧
    countryShapeMessage ≠ countryUnsupportedMessage (jsToUpper s) ∧
    EU_COUNTRY_CODES.length = 29 ∧ "XI" ∈ EU_COUNTRY_CODES := by
  refine ⟨?_, ?_, ?_, countryShape_ne_unsupported _, by decide, by decide⟩
  · by_cases h1 : countryCodeRegexTest (jsToUpper s) = true
    · by_cases h2 : jsToUpper s ∈ EU_COUNTRY_CODES
      · simp [validateCountryCode, h1, h2]
      · simp [validateCountryCode, h1, h2]
    · simp only [Bool.not_eq_true] at h1
      simp [validateCountryCode, h1]
  · intro h1
    simp [validateCountryCode, h1]
  · intro h1 h2
    simp [validateCountryCode, h1, h2]

/-- Witness for C6 at a concrete input: `ZZ` is well-formed but unsupported. -/
theorem validateCountryCode_spec_witness :
    (countryCodeRegexTest (jsToUpper "ZZ") = true ∧
      jsToUpper "ZZ" ∉ EU_COUNTRY_CODES) ∧
    validateCountryCode "ZZ" =
      some ⟨"Invalid Input", countryUnsupportedMessage (jsToUpper "ZZ")⟩ :=
  ⟨⟨by decide, by decide⟩,
    (validateCountryCode_spec "ZZ").2.2.1 (by decide) (by decide)⟩

/-- Counterexample to claim C6 as stated: the lowercase input `ie` is accepted
although it is neither two uppercase letters nor a member of the allow-list
(the implementation uppercases before testing). -/
theorem validateCountryCode_claim_counterexample :
    validateCountryCode "ie" = none ∧ countryCodeRegexTest "ie" = false ∧
      ("ie" : String) ∉ EU_COUNTRY_CODES := by
  refine ⟨by decide, by decide, by decide⟩

/-! ## VAT-number validation (claim C7) -/

/-- Claim C7 (amended): `validateVatNumber` itself performs no normalization:
it accepts exactly the strings that already match `^[A-Z0-9]{2,12}$`, and
composed with `normalizeVatNumber` it accepts exactly the inputs whose
normalization matches that pattern. -/
theorem validateVatNumber_spec (s : String) :
    (validateVatNumber s = none ↔ vatNumberRegexTest s = true) ∧
    (validateVatNumber (normalizeVatNumber s) = none ↔
      vatNumberRegexTest (normalizeVatNumber s) = true) := by
  have main : ∀ t : String, validateVatNumber t = none ↔ vatNumberRegexTest t = true := by
    intro t
    by_cases h0 : (t == "") = true
    · rw [beq_iff_eq] at h0
      subst h0
      decide
    · by_cases h1 : vatNumberRegexTest t = true
      · simp [validateVatNumber, h0, h1]
      · simp only [Bool.not_eq_true] at h1
        simp [validateVatNumber, h0, h1]
  exact ⟨main s, main (normalizeVatNumber s)⟩

/-- Counterexample to claim C7 as stated: `A B` normalizes to `AB`, which
matches the pattern, yet `validateVatNumber "A B"` rejects — the function does
not normalize its input. -/
theorem validateVatNumber_claim_counterexample :
    validateVatNumber "A B" ≠ none ∧
      vatNumberRegexTest (normalizeVatNumber "A B") = true := by
  refine ⟨by decide, by decide⟩

/-! ## Full-identifier validation (claim C5) -/

/-- Claim C5 (amended): `validateFullVatInput` trims the raw input first; it
rejects a trimmed input over 20 characters or under 4 characters (including
the empty string) with an `Invalid Input` error, and otherwise slices the
first two trimmed characters as the country code, normalizes the remainder,
and re-applies the two validators. `IE6388047V` succeeds with countryCode
`IE` and vatNumber `6388047V`; the empty string, `I6`, and a 25-character
non-whitespace input are each rejected with `Invalid Input`. -/
theorem validateFullVatInput_spec (raw : String) :
    (20 < (jsTrim raw).data.length →
      ∃ m, validateFullVatInput raw = .error ⟨"Invalid Input", m⟩) ∧
    ((jsTrim raw).data.length < 4 →
      ∃ m, validateFullVatInput raw = .error ⟨"Invalid Input", m⟩) ∧
    (4 ≤ (jsTrim raw).data.length → (jsTrim raw).data.length ≤ 20 →
      validateFullVatInput raw =
        (match validateCountryCode (jsToUpper ⟨(jsTrim raw).data.take 2⟩) with
         | some e => .error ⟨e.error, fullInputCountryMessage⟩
         | none =>
             match validateVatNumber (normalizeVatNumber ⟨(jsTrim raw).data.drop 2⟩) with
             | some e => .error e
             | none => .ok ⟨jsToUpper ⟨(jsTrim raw).data.take 2⟩,
                 normalizeVatNumber ⟨(jsTrim raw).data.drop 2⟩⟩)) ∧
    validateFullVatInput "IE6388047V" = .ok ⟨"IE", "6388047V"⟩ ∧
    validateFullVatInput "" = .error ⟨"Invalid Input",
      "Query parameter vat_number is required (e.g. ?vat_number=IE6388047V)."⟩ ∧
    validateFullVatInput "I6" = .error ⟨"Invalid Input",
      "vat_number must start with a two-letter country code followed by the VAT number (e.g. IE6388047V)."⟩ ∧
    validateFullVatInput "AAAAAAAAAAAAAAAAAAAAAAAAA" = .error ⟨"Invalid Input",
      "vat_number is too long (max 20 characters)."⟩ := by
  refine ⟨fun h => ?_, fun h => ?_, fun h4 h20 => ?_,
    by decide, by decide, by decide, by decide⟩
  · have hne : ¬((jsTrim raw == "") = true) := by
      rw [beq_iff_eq]
      intro e
      rw [e] at h
      exact absurd h (by decide)
    refine ⟨"vat_number is too long (max 20 characters).", ?_⟩
    simp only [validateFullVatInput]
    rw [if_neg hne, if_pos (show MAX_VAT_INPUT_LENGTH < (jsTrim raw).data.length from h)]
  · by_cases he : (jsTrim raw == "") = true
    · refine ⟨"Query parameter vat_number is required (e.g. ?vat_number=IE6388047V).", ?_⟩
      simp only [validateFullVatInput]
      rw [if_pos he]
    · refine ⟨"vat_number must start with a two-letter country code followed by the VAT number (e.g. IE6388047V).", ?_⟩
      simp only [validateFullVatInput]
      rw [if_neg he,
        if_neg (show ¬(MAX_VAT_INPUT_LENGTH < (jsTrim raw).data.length) from by
          simp only [MAX_VAT_INPUT_LENGTH]; omega),
        if_pos h]
  · have hne : ¬((jsTrim raw == "") = true) := by
      rw [beq_iff_eq]
      intro e
      rw [e] at h4
      exact absurd h4 (by decide)
    simp only [validateFullVatInput]
    rw [if_neg hne,
      if_neg (show ¬(MAX_VAT_INPUT_LENGTH < (jsTrim raw).data.length) from by
        simp only [MAX_VAT_INPUT_LENGTH]; omega),
      if_neg (show ¬((jsTrim raw).data.length < 4) from by omega)]

/-- Witness for C5 at a concrete too-long input. -/
theorem validateFullVatInput_spec_witness :
    20 < (jsTrim "AAAAAAAAAAAAAAAAAAAAAAAAA").data.length ∧
    ∃ m, validateFullVatInput "AAAAAAAAAAAAAAAAAAAAAAAAA" =
      .error ⟨"Invalid Input", m⟩ :=
  ⟨by decide, (validateFullVatInput_spec "AAAAAAAAAAAAAAAAAAAAAAAAA").1 (by decide)⟩

/-- Counterexample to claim C5 as stated: a 25-character raw input whose
trailing characters are whitespace is accepted, because the length guards run
on the trimmed input, not the raw input. -/
theorem validateFullVatInput_claim_counterexample :
    ("IE6388047V               " : String).data.length = 25 ∧
    validateFullVatInput "IE6388047V               " = .ok ⟨"IE", "6388047V"⟩ := by
  refine ⟨by decide, by decide⟩

/-! ## Fallback orchestration (claim C1) -/

/-- The fallback decision bit of `validateVat`. -/
theorem validateVat_snd (key : Option String) (err : UpstreamError)
    (fb : Except UpstreamError ViesResponse) :
    (validateVat key (.error err) fb).2 =
      (vatlayerConfigured key &&
        match err with
        | .vies e => e.code == .SERVICE_UNAVAILABLE && e.statusCode == 502
        | .plain _ => false) := by
  simp only [validateVat]
  split <;> simp_all

/-- Claim C1: when the registry call fails, `validateVat` invokes the
fallback exactly when the error is a `ViesServiceError` with code
`SERVICE_UNAVAILABLE` at HTTP status 502 and the fallback credential is
configured; in that case the single fallback call's outcome (success or
failure) is returned unchanged, and otherwise the original error propagates
unchanged. -/
theorem validateVat_fallback_spec (key : Option String)
    (viesResult fallbackResult : Except UpstreamError ViesResponse)
    (err : UpstreamError) (h : viesResult = .error err) :
    ((validateVat key viesResult fallbackResult).2 = true ↔
      (vatlayerConfigured key = true ∧ ∃ e : ViesServiceError, err = .vies e ∧
        e.code = .SERVICE_UNAVAILABLE ∧ e.statusCode = 502)) ∧
    ((validateVat key viesResult fallbackResult).2 = true →
      validateVat key viesResult fallbackResult = (fallbackResult, true)) ∧
    ((validateVat key viesResult fallbackResult).2 = false →
      validateVat key viesResult fallbackResult = (.error err, false)) := by
  subst h
  refine ⟨?_, ?_, ?_⟩
  · rw [validateVat_snd]
    rcases err with e | m
    · simp only [Bool.and_eq_true, beq_iff_eq]
      constructor
      · rintro ⟨hk, hc, hs⟩
        exact ⟨hk, e, rfl, hc, hs⟩
      · rintro ⟨hk, e2, he2, hc, hs⟩
        cases he2
        exact ⟨hk, hc, hs⟩
    · simp only [Bool.and_eq_true]
      constructor
      · rintro ⟨_, hfalse⟩
        exact absurd hfalse (by simp)
      · rintro ⟨_, e2, he2, _⟩
        exact absurd he2 (by simp)
  · intro h2
    rw [validateVat_snd] at h2
    simp only [validateVat, h2, if_true]
  · intro h2
    rw [validateVat_snd] at h2
    simp [validateVat, h2]

/-- Witness for C1: a configured key and the IP-blocking error trigger the
fallback, whose successful result is returned unchanged. -/
theorem validateVat_fallback_spec_witness :
    validateVat (some "key")
        (.error (.vies ⟨"m", .SERVICE_UNAVAILABLE, 502, none⟩))
        (.ok ⟨true, "IE", "6388047V", "ACME", "ADDR", "2024-01-01", none⟩) =
      (.ok ⟨true, "IE", "6388047V", "ACME", "ADDR", "2024-01-01", none⟩, true) :=
  (validateVat_fallback_spec (some "key") _ _ _ rfl).2.1 (by decide)

/-! ## Fault-string classification (claim C2) -/

theorem leadsWith_trans {p q l : List Char} (h1 : leadsWith p q = true)
    (h2 : leadsWith q l = true) : leadsWith p l = true := by
  induction p generalizing q l with
  | nil => rfl
  | cons a as ih =>
    cases q with
    | nil => simp [leadsWith] at h1
    | cons b bs =>
      cases l with
      | nil => simp [leadsWith] at h2
      | cons c cs =>
        simp only [leadsWith, Bool.and_eq_true, beq_iff_eq] at h1 h2 ⊢
        exact ⟨h1.1.trans h2.1, ih h1.2 h2.2⟩

/-- A substring occurrence of `q` yields one of every prefix of `q`. -/
theorem hasSubList_of_leadsWith {p q hay : List Char} (hpq : leadsWith p q = true)
    (h : hasSubList q hay = true) : hasSubList p hay = true := by
  induction hay with
  | nil =>
    cases q with
    | nil =>
      cases p with
      | nil => rfl
      | cons a as => simp [leadsWith] at hpq
    | cons b bs => simp [hasSubList, leadsWith] at h
  | cons c t ih =>
    simp only [hasSubList, Bool.or_eq_true] at h ⊢
    rcases h with h | h
    · exact .inl (leadsWith_trans hpq h)
    · exact .inr (ih h)

/-- Claim C2: `normalizeFault` implements exactly the priority cascade stated
in the specification (the source's extra `invalid input` disjunct is
subsumed by `invalid`), and a fault string containing both `busy` and
`invalid` — with no earlier rule matching — classifies by the earlier
`invalid` rule as `INVALID_INPUT` at 400. -/
theorem normalizeFault_spec :
    (∀ s : String, normalizeFault s = normalizeFaultClaim s) ∧
    (∀ s : String, jsIncludes (jsToLower s) "busy" = true →
      jsIncludes (jsToLower s) "invalid" = true →
      jsIncludes (jsToLower s) "service unavailable" = false →
      jsIncludes (jsToLower s) "server down" = false →
      jsIncludes (jsToLower s) "ms unavailable" = false →
      jsIncludes (jsToLower s) "member state" = false →
      normalizeFault s = (.INVALID_INPUT, 400)) := by
  constructor
  · intro s
    have key : (jsIncludes (jsToLower s) "invalid" ||
        jsIncludes (jsToLower s) "invalid input") = jsIncludes (jsToLower s) "invalid" := by
      cases h : jsIncludes (jsToLower s) "invalid"
      · cases h2 : jsIncludes (jsToLower s) "invalid input"
        · simp
        · have h3 : jsIncludes (jsToLower s) "invalid" = true :=
            hasSubList_of_leadsWith (by decide) h2
          rw [h] at h3
          cases h3
      · simp
    simp only [normalizeFault, normalizeFaultClaim, key]
  · intro s h1 h2 h3 h4 h5 h6
    simp [normalizeFault, h1, h2, h3, h4, h5, h6]

/-- Witness for C2: `busy invalid` contains both `busy` and `invalid` and
classifies as `INVALID_INPUT` at 400. -/
theorem normalizeFault_spec_witness :
    normalizeFault "busy invalid" = (.INVALID_INPUT, 400) :=
  normalizeFault_spec.2 "busy invalid" (by decide) (by decide) (by decide)
    (by decide) (by decide) (by decide)

/-! ## Transport-level classification (claim C3) -/

/-- Claim C3: with no SOAP fault body available, the `catch` branch of
`checkVat` classifies exactly by the specification's transport cascade; the
403 (IP-blocking) case carries the diagnostic detail distinguishing it from
the generic 503 case (which carries none); a non-axios failure is
`UNKNOWN_ERROR` at 502. -/
theorem checkVat_transport_classification (ax : AxiosErrorInfo)
    (hnf : axiosFaultString ax = none) :
    ((classifyAxiosError ax).code, (classifyAxiosError ax).statusCode) =
      classifyTransportClaim ax ∧
    (classifyTransportClaim ax = (.SERVICE_UNAVAILABLE, 502) →
      (classifyAxiosError ax).details = some ipBlockDetail) ∧
    (classifyTransportClaim ax = (.SERVICE_UNAVAILABLE, 503) →
      (classifyAxiosError ax).details = none) ∧
    (∀ m, checkVat (.otherFailure m) =
      .error (toFriendlyError .UNKNOWN_ERROR 502 m)) ∧
    checkVat (.axiosFailure ax) = .error (classifyAxiosError ax) := by
  refine ⟨?_, ?_, ?_, fun m => rfl, rfl⟩
  · simp only [classifyAxiosError, hnf, classifyTransportClaim]
    repeat' split
    all_goals rfl
  · intro hcl
    simp only [classifyTransportClaim] at hcl
    simp only [classifyAxiosError, hnf]
    repeat' split at hcl
    all_goals first
      | rfl
      | simp_all [toFriendlyError]
  · intro hcl
    simp only [classifyTransportClaim] at hcl
    simp only [classifyAxiosError, hnf]
    repeat' split at hcl
    all_goals first
      | rfl
      | simp_all [toFriendlyError]

/-- Witness for C3: an upstream 403 with no fault body is the IP-blocking
`SERVICE_UNAVAILABLE` at 502, with the diagnostic detail attached. -/
theorem checkVat_transport_classification_witness :
    ((classifyAxiosError ⟨none, none, some 403, none⟩).code,
      (classifyAxiosError ⟨none, none, some 403, none⟩).statusCode) =
        classifyTransportClaim ⟨none, none, some 403, none⟩ ∧
    (classifyAxiosError ⟨none, none, some 403, none⟩).details = some ipBlockDetail :=
  ⟨(checkVat_transport_classification ⟨none, none, some 403, none⟩ rfl).1,
    (checkVat_transport_classification ⟨none, none, some 403, none⟩ rfl).2.1 (by decide)⟩

/-! ## Response-body handling (claim C4) -/

theorem find1_mem_lt {tag l : List Char} {cap : List Char}
    (h : find1 tag l = some cap) : '<' ∈ l := by
  induction l generalizing cap with
  | nil => simp [find1] at h
  | cons c cs ih =>
    simp only [find1] at h
    rcases (Option.orElse_eq_some _ _ _).mp h with h1 | ⟨_, h2⟩
    · by_cases hc : (c == '<') = true
      · rw [beq_iff_eq] at hc
        subst hc
        exact List.mem_cons_self _ _
      · rw [if_neg hc] at h1
        cases h1
    · exact List.mem_cons_of_mem _ (ih h2)

theorem find2_mem_lt {tag l : List Char} {cap : List Char}
    (h : find2 tag l = some cap) : '<' ∈ l := by
  induction l generalizing cap with
  | nil => simp [find2] at h
  | cons c cs ih =>
    simp only [find2] at h
    rcases (Option.orElse_eq_some _ _ _).mp h with h1 | ⟨_, h2⟩
    · by_cases hc : (c == '<') = true
      · rw [beq_iff_eq] at hc
        subst hc
        exact List.mem_cons_self _ _
      · rw [if_neg hc] at h1
        cases h1
    · exact List.mem_cons_of_mem _ (ih h2)

/-- A successful tag extraction means the body contains a `<`. -/
theorem extractTag_mem_lt {xml tagName f : String}
    (h : extractTag xml tagName = some f) : '<' ∈ xml.data := by
  unfold extractTag at h
  cases h1 : find1 tagName.data xml.data with
  | some cap => exact find1_mem_lt h1
  | none =>
    rw [h1] at h
    cases h2 : find2 tagName.data xml.data with
    | some cap => exact find2_mem_lt h2
    | none => rw [h2] at h; cases h

/-- A list containing a non-whitespace character does not trim to empty. -/
theorem jsTrimList_ne_nil {l : List Char} {c : Char} (hc : c ∈ l)
    (hw : jsWhitespace c = false) : jsTrimList l ≠ [] := by
  intro h0
  have h1 : List.rdropWhile (fun c => jsWhitespace c)
      (l.dropWhile (fun c => jsWhitespace c)) = [] := h0
  rw [List.rdropWhile_eq_nil_iff] at h1
  have hall : jsWhitespace c = true := by
    rw [← List.takeWhile_append_dropWhile (fun c => jsWhitespace c) l] at hc
    rcases List.mem_append.mp hc with h | h
    · exact List.mem_takeWhile_imp h
    · exact h1 c h
  rw [hall] at hw
  cases hw

/-- Claim C4 (amended): an empty or non-text body fails as `PARSE_ERROR`, not
as a valid result; a `faultstring` element with nonempty trimmed text
short-circuits lookup to fault classification, never attempting result
parsing, while a `faultstring` element whose text trims to empty is ignored
by the truthiness guard (the amendment); and a body with no such fault and no
`valid` element is a hard `PARSE_ERROR` — there is no implicit default. -/
theorem checkVat_body_spec (data f : String) :
    (checkVat (.success none) =
      .error (toFriendlyError .PARSE_ERROR 502 (some "Empty response from VIES"))) ∧
    (jsTrimList data.data = [] →
      checkVat (.success (some data)) =
        .error (toFriendlyError .PARSE_ERROR 502 (some "Empty response from VIES"))) ∧
    (getSoapFaultString data = some f →
      checkVat (.success (some data)) =
        .error (toFriendlyError (normalizeFault f).1 (normalizeFault f).2 (some f))) ∧
    (getSoapFaultString data = some f ↔
      ∃ f0, extractTag data "faultstring" = some f0 ∧ f0 ≠ "" ∧ f = jsTrim f0) ∧
    (getSoapFaultString data = none → extractTag data "valid" = none →
      ∃ d, checkVat (.success (some data)) =
        .error (toFriendlyError .PARSE_ERROR 502 (some d))) := by
  refine ⟨rfl, fun h => ?_, fun hf => ?_, ?_, fun hn hv => ?_⟩
  · simp only [checkVat]
    rw [if_pos (show ((jsTrim data).data.length == 0) = true by
      simp [jsTrim, h])]
  · have hx : ∃ f0, extractTag data "faultstring" = some f0 ∧ f0 ≠ "" := by
      unfold getSoapFaultString at hf
      cases he : extractTag data "faultstring" with
      | none => rw [he] at hf; cases hf
      | some f0 =>
        rw [he] at hf
        dsimp only at hf
        by_cases h0 : (f0 == "") = true
        · rw [if_pos h0] at hf; cases hf
        · exact ⟨f0, rfl, by simpa using h0⟩
    obtain ⟨f0, he, hne⟩ := hx
    have hlt : '<' ∈ data.data := extractTag_mem_lt he
    have hnn : jsTrimList data.data ≠ [] := jsTrimList_ne_nil hlt (by decide)
    simp only [checkVat]
    rw [if_neg (show ¬(((jsTrim data).data.length == 0) = true) by
      simp [jsTrim]
      intro habs
      exact hnn habs), hf]
  · unfold getSoapFaultString
    cases he : extractTag data "faultstring" with
    | none =>
      simp only [he]
      constructor
      · intro hfalse; cases hfalse
      · rintro ⟨f0, hf0, _⟩; cases hf0
    | some f0 =>
      by_cases h0 : (f0 == "") = true
      · simp only [he, if_pos h0]
        rw [beq_iff_eq] at h0
        constructor
        · intro hfalse; cases hfalse
        · rintro ⟨f1, hf1, hne, _⟩
          cases hf1
          exact absurd h0 hne
      · simp only [he, if_neg h0]
        constructor
        · intro hsome
          exact ⟨f0, rfl, by simpa using h0, (Option.some.inj hsome).symm⟩
        · rintro ⟨f1, hf1, _, rfl⟩
          cases hf1
          rfl
  · by_cases hlen : jsTrimList data.data = []
    · refine ⟨"Empty response from VIES", ?_⟩
      simp only [checkVat]
      rw [if_pos (show ((jsTrim data).data.length == 0) = true by
        simp [jsTrim, hlen])]
    · refine ⟨"VIES response missing required \x27valid\x27 element", ?_⟩
      simp only [checkVat]
      rw [if_neg (show ¬(((jsTrim data).data.length == 0) = true) by
        simp [jsTrim]
        intro habs
        exact hlen habs), hn]
      have hp : parseViesResponse data =
          .error "VIES response missing required \x27valid\x27 element" := by
        simp [parseViesResponse, hv]
      rw [hp]

/-- Witness for C4: a body carrying the fault `MS Unavailable` classifies to
`MS_UNAVAILABLE` at 503 without result parsing. -/
theorem checkVat_body_spec_witness :
    checkVat (.success (some "<faultstring>MS Unavailable</faultstring>")) =
      .error (toFriendlyError (normalizeFault "MS Unavailable").1
        (normalizeFault "MS Unavailable").2 (some "MS Unavailable")) :=
  (checkVat_body_spec "<faultstring>MS Unavailable</faultstring>"
    "MS Unavailable").2.2.1 (by decide)

/-- Counterexample to claim C4 as stated: this body contains a `faultstring`
element (with whitespace-only content), yet lookup does not short-circuit to
fault classification — it proceeds to result parsing and succeeds. -/
theorem checkVat_faultstring_claim_counterexample :
    jsIncludes "<faultstring> </faultstring><valid>true</valid>" "<faultstring>" = true ∧
    extractTag "<faultstring> </faultstring><valid>true</valid>" "faultstring" = some "" ∧
    checkVat (.success (some "<faultstring> </faultstring><valid>true</valid>")) =
      .ok ⟨true, "", "", "", "", "", none⟩ :=
  ⟨by decide, by decide, by decide⟩

/-! ## Response parsing (claim C8) -/

theorem lowerChar_toNat (c : Char) :
    (65 ≤ c.toNat ∧ c.toNat ≤ 90 ∧ (lowerChar c).toNat = c.toNat + 32) ∨
    (¬(65 ≤ c.toNat ∧ c.toNat ≤ 90) ∧ lowerChar c = c) := by
  by_cases h : 65 ≤ c.toNat ∧ c.toNat ≤ 90
  · have hv : (c.toNat + 32).isValidChar := Or.inl (by omega)
    refine .inl ⟨h.1, h.2, ?_⟩
    show (if 65 ≤ c.toNat ∧ c.toNat ≤ 90 then Char.ofNat (c.toNat + 32) else c).toNat = _
    rw [if_pos h, char_toNat_ofNat hv]
  · refine .inr ⟨h, ?_⟩
    show (if 65 ≤ c.toNat ∧ c.toNat ≤ 90 then Char.ofNat (c.toNat + 32) else c) = c
    exact if_neg h

/-- A character whose JS lowercase image is a lowercase letter is itself a
letter, hence not whitespace. -/
theorem jsWhitespace_false_of_lowerChar_letter {c d : Char}
    (hd : 97 ≤ d.toNat ∧ d.toNat ≤ 122) (h : lowerChar c = d) :
    jsWhitespace c = false := by
  rcases lowerChar_toNat c with ⟨_, _, h3⟩ | ⟨_, h2⟩
  · have h4 : (lowerChar c).toNat = d.toNat := by rw [h]
    rw [h3] at h4
    exact jsWhitespace_false_of_ge (by omega)
  · rw [h2] at h
    subst h
    exact jsWhitespace_false_of_ge (by omega)

/-- Characterization of the case-insensitive literal strip. -/
theorem ciStrip_some_iff {t l r : List Char} :
    ciStrip t l = some r ↔
      ∃ u, l = u ++ r ∧ u.map lowerChar = t.map lowerChar := by
  induction t generalizing l with
  | nil =>
    simp only [ciStrip, List.map_nil]
    constructor
    · intro h
      exact ⟨[], by simpa using Option.some.inj h, rfl⟩
    · rintro ⟨u, rfl, hu⟩
      have hu0 : u = [] := by simpa using hu
      subst hu0
      rfl
  | cons a as ih =>
    cases l with
    | nil =>
      simp only [ciStrip]
      constructor
      · intro h; cases h
      · rintro ⟨u, hu, hmap⟩
        obtain ⟨rfl, -⟩ := List.append_eq_nil.mp hu.symm
        simp at hmap
    | cons b bs =>
      simp only [ciStrip]
      by_cases hab : (lowerChar a == lowerChar b) = true
      · rw [if_pos hab, ih]
        rw [beq_iff_eq] at hab
        constructor
        · rintro ⟨u, rfl, hmap⟩
          exact ⟨b :: u, rfl, by simp [hmap, hab]⟩
        · rintro ⟨u, hu, hmap⟩
          cases u with
          | nil => simp at hmap
          | cons u0 us =>
            rw [List.cons_append] at hu
            obtain ⟨rfl, rfl⟩ := List.cons.inj hu
            simp only [List.map_cons] at hmap
            exact ⟨us, rfl, (List.cons.inj hmap).2⟩
      · rw [if_neg hab]
        constructor
        · intro h; cases h
        · rintro ⟨u, hu, hmap⟩
          cases u with
          | nil => simp at hmap
          | cons u0 us =>
            rw [List.cons_append] at hu
            obtain ⟨rfl, -⟩ := List.cons.inj hu
            simp only [List.map_cons] at hmap
            exact absurd (beq_iff_eq.mpr (List.cons.inj hmap).1.symm) hab

theorem rdropWhile_append_all {α : Type} {p : α → Bool} {a b : List α}
    (hb : ∀ x ∈ b, p x = true) :
    List.rdropWhile p (a ++ b) = List.rdropWhile p a := by
  induction b using List.reverseRecOn with
  | nil => simp
  | append_singleton b2 x ih =>
    rw [← List.append_assoc, List.rdropWhile_concat_pos _ _ x (hb x (by simp))]
    exact ih (fun y hy => hb y (by simp [hy]))

theorem rdropWhile_append_rtakeWhileSplit {α : Type} (p : α → Bool) (l : List α) :
    List.rdropWhile p l ++ List.rtakeWhile p l = l := by
  rw [List.rdropWhile, List.rtakeWhile, ← List.reverse_append,
    List.takeWhile_append_dropWhile, List.reverse_reverse]

/-- The anchored case-insensitive test `^\s*true\s*$` holds exactly when the
trimmed, lowercased string is the literal `true`. -/
theorem trueLiteralTest_iff (s : String) :
    trueLiteralTest s = true ↔ jsToLower (jsTrim s) = "true" := by
  have hTR : "true".data.map lowerChar = "true".data := by decide
  have hlist : jsTrimList s.data =
      List.rdropWhile (fun c => jsWhitespace c)
        (s.data.dropWhile (fun c => jsWhitespace c)) := rfl
  constructor
  · intro h
    unfold trueLiteralTest at h
    cases hcs : ciStrip "true".data (s.data.dropWhile (fun c => jsWhitespace c)) with
    | none => rw [hcs] at h; cases h
    | some rest =>
      rw [hcs] at h
      obtain ⟨u, hmu, hmap⟩ := ciStrip_some_iff.mp hcs
      rw [hTR] at hmap
      have hws : ∀ x ∈ rest, jsWhitespace x = true := by
        simpa [allWs, List.all_eq_true] using h
      rcases u with _ | ⟨c1, _ | ⟨c2, _ | ⟨c3, _ | ⟨c4, _ | ⟨c5, u5⟩⟩⟩⟩⟩
      · exact absurd hmap (by simp)
      · exact absurd hmap (by simp)
      · exact absurd hmap (by simp)
      · exact absurd hmap (by simp)
      case _ =>
        simp only [List.map_cons, List.map_nil, List.cons.injEq, and_true] at hmap
        obtain ⟨h1, h2, h3, h4⟩ := hmap
        have hc4 : jsWhitespace c4 = false :=
          jsWhitespace_false_of_lowerChar_letter (by decide) h4
        have htrim : jsTrimList s.data = [c1, c2, c3, c4] := by
          rw [hlist, hmu, rdropWhile_append_all hws,
            show ([c1, c2, c3, c4] : List Char) = [c1, c2, c3] ++ [c4] from rfl,
            List.rdropWhile_concat_neg _ _ c4 (by simp [hc4])]
        show jsToLower ⟨jsTrimList s.data⟩ = "true"
        rw [htrim]
        exact congrArg String.mk (by simp [h1, h2, h3, h4])
      case _ => exact absurd hmap (by simp)
  · intro h
    have hdata : (jsTrimList s.data).map lowerChar = "true".data :=
      congrArg String.data h
    unfold trueLiteralTest
    have hcs : ciStrip "true".data (s.data.dropWhile (fun c => jsWhitespace c)) =
        some (List.rtakeWhile (fun c => jsWhitespace c)
          (s.data.dropWhile (fun c => jsWhitespace c))) := by
      apply ciStrip_some_iff.mpr
      refine ⟨jsTrimList s.data, ?_, ?_⟩
      · rw [hlist]
        exact (rdropWhile_append_rtakeWhileSplit _ _).symm
      · rw [hTR]
        exact hdata
    rw [hcs]
    simp only [allWs, List.all_eq_true]
    intro x hx
    exact List.mem_rtakeWhile_imp hx

/-- Claim C8: for every body accepted by `parseViesResponse`, each field is
extracted from the correspondingly-named tag (namespace prefixes tolerated by
`extractTag`); `valid` is true iff the element text is a case-insensitive
exact match to the literal `true` ignoring surrounding whitespace; the
remaining fields default to the empty string when absent; and the optional
`requestIdentifier` maps to `consultationNumber`, `none` when absent. -/
theorem parseViesResponse_spec (xml : String) (r : ViesResponse)
    (h : parseViesResponse xml = .ok r) :
    ∃ v, extractTag xml "valid" = some v ∧
      r.valid = trueLiteralTest v ∧
      (r.valid = true ↔ jsToLower (jsTrim v) = "true") ∧
      r.countryCode = (extractTag xml "countryCode").getD "" ∧
      r.vatNumber = (extractTag xml "vatNumber").getD "" ∧
      r.name = (extractTag xml "name").getD "" ∧
      r.address = (extractTag xml "address").getD "" ∧
      r.requestDate = (extractTag xml "requestDate").getD "" ∧
      r.consultationNumber = extractTag xml "requestIdentifier" := by
  unfold parseViesResponse at h
  cases hv : extractTag xml "valid" with
  | none => rw [hv] at h; cases h
  | some v =>
    rw [hv] at h
    obtain rfl := Except.ok.inj h
    exact ⟨v, rfl, rfl, trueLiteralTest_iff v, rfl, rfl, rfl, rfl, rfl, rfl⟩

/-- Witness for C8 at a concrete accepted body. -/
theorem parseViesResponse_spec_witness :
    ∃ v, extractTag "<valid>TRUE</valid><name>ACME</name>" "valid" = some v ∧
      (true : Bool) = trueLiteralTest v ∧
      ((true : Bool) = true ↔ jsToLower (jsTrim v) = "true") ∧
      ("" : String) = (extractTag "<valid>TRUE</valid><name>ACME</name>" "countryCode").getD "" ∧
      ("" : String) = (extractTag "<valid>TRUE</valid><name>ACME</name>" "vatNumber").getD "" ∧
      ("ACME" : String) = (extractTag "<valid>TRUE</valid><name>ACME</name>" "name").getD "" ∧
      ("" : String) = (extractTag "<valid>TRUE</valid><name>ACME</name>" "address").getD "" ∧
      ("" : String) = (extractTag "<valid>TRUE</valid><name>ACME</name>" "requestDate").getD "" ∧
      (none : Option String) = extractTag "<valid>TRUE</valid><name>ACME</name>" "requestIdentifier" :=
  parseViesResponse_spec "<valid>TRUE</valid><name>ACME</name>"
    ⟨true, "", "", "ACME", "", "", none⟩ (by decide)

/-! ## Escape/extract round trip (claim C9) -/

theorem replaceAllChar_eq_self {c : Char} {rep : List Char} {l : List Char}
    (h : ∀ a ∈ l, (a == c) = false) : replaceAllChar c rep l = l := by
  induction l with
  | nil => rfl
  | cons a t ih =>
    simp [replaceAllChar, h a (by simp), ih (fun b hb => h b (by simp [hb]))]

/-- A string with none of the five meta-characters escapes to itself. -/
theorem escapeXml_eq_self {s : String} (h : ∀ c ∈ s.data, xmlMeta c = false) :
    escapeXml s = s := by
  have h5 : ∀ c ∈ s.data, (c == '&') = false ∧ (c == '<') = false ∧
      (c == '>') = false ∧ (c == '"') = false ∧ (c == '\'') = false := by
    intro c hc
    have hx := h c hc
    simp only [xmlMeta, Bool.or_eq_false_iff] at hx
    exact ⟨hx.1.1.1.1, hx.1.1.1.2, hx.1.1.2, hx.1.2, hx.2⟩
  unfold escapeXml
  have e1 : replaceAllChar '&' "&amp;".data s.data = s.data :=
    replaceAllChar_eq_self (fun a ha => (h5 a ha).1)
  rw [e1]
  have e2 : replaceAllChar '<' "&lt;".data s.data = s.data :=
    replaceAllChar_eq_self (fun a ha => (h5 a ha).2.1)
  rw [e2]
  have e3 : replaceAllChar '>' "&gt;".data s.data = s.data :=
    replaceAllChar_eq_self (fun a ha => (h5 a ha).2.2.1)
  rw [e3]
  have e4 : replaceAllChar '"' "&quot;".data s.data = s.data :=
    replaceAllChar_eq_self (fun a ha => (h5 a ha).2.2.2.1)
  rw [e4]
  have e5 : replaceAllChar '\'' "&apos;".data s.data = s.data :=
    replaceAllChar_eq_self (fun a ha => (h5 a ha).2.2.2.2)
  rw [e5]

theorem closeTag_ne_lt {tag : List Char} {c : Char} {l : List Char}
    (h : (c == '<') = false) : closeTag tag (c :: l) = false := by
  cases l with
  | nil => rfl
  | cons c2 cs => simp [closeTag, h]

/-- The lazy capture passes over a chunk containing no `<`. -/
theorem captureLoop_append {tag l rest : List Char}
    (h : ∀ c ∈ l, (c == '<') = false) :
    captureLoop tag (l ++ rest) = (captureLoop tag rest).map (fun x => l ++ x) := by
  induction l with
  | nil => simp
  | cons c t ih =>
    rw [List.cons_append]
    simp only [captureLoop, closeTag_ne_lt (h c (by simp)), Bool.false_eq_true,
      if_false, ih (fun d hd => h d (by simp [hd])), Option.map_map]
    congr 1

/-- The envelope around the (escaped) vat number, split at the vat-number
slot; holds definitionally since `buildSoapEnvelope` is grouped to the
right. -/
theorem envelope_decomp (s : String) :
    buildSoapEnvelope "IE" s =
      "<?xml version=\"1.0\" encoding=\"UTF-8\"?>\n<soap:Envelope xmlns:soap=\"http://schemas.xmlsoap.org/soap/envelope/\" xmlns:urn=\"urn:ec.europa.eu:taxud:vies:services:checkVat:types\">\n  <soap:Body>\n    <urn:checkVat>\n      <urn:countryCode>IE</urn:countryCode>\n      <urn:vatNumber>" ++
        (escapeXml s ++
          "</urn:vatNumber>\n    </urn:checkVat>\n  </soap:Body>\n</soap:Envelope>") := rfl

/-- Scanning the envelope for the vatNumber tag: every candidate position in
the concrete prefix fails, and the true open tag leaves the capture loop
positioned on the vat number followed by the closing tag. -/
theorem find1_envelope (s : String) :
    find1 "vatNumber".data
        (("<?xml version=\"1.0\" encoding=\"UTF-8\"?>\n<soap:Envelope xmlns:soap=\"http://schemas.xmlsoap.org/soap/envelope/\" xmlns:urn=\"urn:ec.europa.eu:taxud:vies:services:checkVat:types\">\n  <soap:Body>\n    <urn:checkVat>\n      <urn:countryCode>IE</urn:countryCode>\n      <urn:vatNumber>" ++
          (s ++ "</urn:vatNumber>\n    </urn:checkVat>\n  </soap:Body>\n</soap:Envelope>")) : String).data =
      (captureLoop "vatNumber".data
          (s.data ++ "</urn:vatNumber>\n    </urn:checkVat>\n  </soap:Body>\n</soap:Envelope>".data) <|>
        find1 "vatNumber".data
          ("urn:vatNumber>".data ++
            (s.data ++ "</urn:vatNumber>\n    </urn:checkVat>\n  </soap:Body>\n</soap:Envelope>".data))) := rfl

/-- Claim C9 (amended): for every VAT-number string containing none of the
five XML meta-characters and no surrounding whitespace (equivalently, fixed
by `trim`), escaping it and embedding it in the built SOAP envelope and then
extracting the `vatNumber` tag yields the original string unchanged; for a
string with surrounding whitespace the extraction returns it trimmed (the
amendment, forced by `extractTag`'s trim of the capture). -/
theorem escape_extract_roundtrip (s : String)
    (hmeta : ∀ c ∈ s.data, xmlMeta c = false)
    (htrim : jsTrim s = s) :
    escapeXml s = s ∧
    extractTag (buildSoapEnvelope "IE" s) "vatNumber" = some s := by
  have hesc : escapeXml s = s := escapeXml_eq_self hmeta
  refine ⟨hesc, ?_⟩
  have hlt : ∀ c ∈ s.data, (c == '<') = false := by
    intro c hc
    have hx := hmeta c hc
    simp only [xmlMeta, Bool.or_eq_false_iff] at hx
    exact hx.1.1.1.2
  have hcap : captureLoop "vatNumber".data
      (s.data ++ "</urn:vatNumber>\n    </urn:checkVat>\n  </soap:Body>\n</soap:Envelope>".data) =
      some s.data := by
    rw [captureLoop_append hlt,
      show captureLoop "vatNumber".data
        "</urn:vatNumber>\n    </urn:checkVat>\n  </soap:Body>\n</soap:Envelope>".data =
        some [] from rfl]
    simp
  have hdata : jsTrimList s.data = s.data := congrArg String.data htrim
  rw [envelope_decomp, hesc]
  unfold extractTag
  rw [find1_envelope, hcap, Option.some_orElse]
  dsimp only
  rw [hdata]

/-- Witness for C9 at a concrete vat number. -/
theorem escape_extract_roundtrip_witness :
    escapeXml "6388047V" = "6388047V" ∧
    extractTag (buildSoapEnvelope "IE" "6388047V") "vatNumber" = some "6388047V" :=
  escape_extract_roundtrip "6388047V" (by decide) (by decide)

/-- Counterexample to claim C9 as stated: the string ` 1` contains none of
the five XML meta-characters, yet the round trip returns `1` — `extractTag`
trims the captured text. -/
theorem escape_extract_claim_counterexample :
    (" 1" : String).data.all (fun c => !xmlMeta c) = true ∧
    escapeXml " 1" = " 1" ∧
    extractTag (buildSoapEnvelope "IE" " 1") "vatNumber" = some "1" :=
  ⟨by decide, by decide, by decide⟩

end VatValidator
